import Mathlib

/-!
Formal model of the core build helpers of the `flit` packaging tool
(`src/flit/common.py` and `src/flit/build.py`), together with proofs of the
behavioural claims about them.

Python strings are modelled as Lean `String` (sequences of unicode code
points); Python integers are unbounded, so `st_mode` values are modelled as
`Nat` (stat modes are nonnegative).  Filesystem and import effects are
modelled by passing their observable results as explicit arguments.
-/

namespace Flit

/-! ## Bitwise helper

Python evaluates `x & ~m` on unbounded nonnegative integers: the complement
`~m` is an infinite mask, so the operation clears exactly the bits of `m`.
For a nonnegative `x` this equals `x ^^^ (x &&& m)` (the bits of `m` that are
set in `x` are removed by the xor); we use that form because the kernel
evaluates `Nat.xor` and `Nat.land` directly.  `andNot_testBit` certifies that
the encoding has exactly the and-not bit semantics. -/

def andNot (x m : Nat) : Nat := x ^^^ (x &&& m)

theorem andNot_testBit (x m k : Nat) :
    (andNot x m).testBit k = (x.testBit k && !m.testBit k) := by
  unfold andNot
  rw [Nat.testBit_xor, Nat.testBit_land]
  cases x.testBit k <;> cases m.testBit k <;> rfl

/-! ## `normalize_file_permissions` (src/flit/common.py, lines 209-220)

```python
def normalize_file_permissions(st_mode):
    # Set 644 permissions, leaving higher bits of st_mode unchanged
    new_mode = (st_mode | 0o644) & ~0o133
    if st_mode & 0o100:
        new_mode |= 0o111  # Executable: 644 -> 755
    return new_mode
```
-/

def normalize_file_permissions (st_mode : Nat) : Nat :=
  let new_mode := andNot (st_mode ||| 0o644) 0o133
  if st_mode &&& 0o100 ≠ 0 then new_mode ||| 0o111 else new_mode

theorem and_two_pow_six_ne (m : Nat) : (m &&& 0o100 ≠ 0) ↔ m.testBit 6 = true := by
  have h := Nat.and_two_pow m 6
  norm_num at h
  rw [h]
  cases m.testBit 6 <;> simp

theorem normalize_testBit_pos (m i : Nat) (h : m.testBit 6 = true) :
    (normalize_file_permissions m).testBit i =
      (((m.testBit i || (0o644 : Nat).testBit i) && !(0o133 : Nat).testBit i)
        || (0o111 : Nat).testBit i) := by
  unfold normalize_file_permissions
  rw [if_pos ((and_two_pow_six_ne m).mpr h)]
  rw [Nat.testBit_lor, andNot_testBit, Nat.testBit_lor]

theorem normalize_testBit_neg (m i : Nat) (h : m.testBit 6 = false) :
    (normalize_file_permissions m).testBit i =
      ((m.testBit i || (0o644 : Nat).testBit i) && !(0o133 : Nat).testBit i) := by
  unfold normalize_file_permissions
  rw [if_neg (fun hc => by simp [(and_two_pow_six_ne m).mp hc] at h)]
  rw [andNot_testBit, Nat.testBit_lor]

/-- On the nine permission bits the result is the corresponding bit of
0o755 (executable) or 0o644 (non-executable). -/
theorem normalize_testBit_low (m i : Nat) (hi : i < 9) :
    (normalize_file_permissions m).testBit i =
      (if m.testBit 6 = true then (0o755 : Nat) else (0o644 : Nat)).testBit i := by
  by_cases h : m.testBit 6 = true
  · rw [normalize_testBit_pos m i h, if_pos h]
    generalize m.testBit i = b
    interval_cases i <;> cases b <;> decide
  · have h' : m.testBit 6 = false := by
      cases hb : m.testBit 6
      · rfl
      · exact absurd hb h
    rw [normalize_testBit_neg m i h', if_neg h]
    generalize m.testBit i = b
    interval_cases i <;> cases b <;> decide

/-- Above the nine permission bits the input is unchanged. -/
theorem normalize_testBit_high (m i : Nat) (hi : 9 ≤ i) :
    (normalize_file_permissions m).testBit i = m.testBit i := by
  have h644 : (0o644 : Nat).testBit i = false :=
    Nat.testBit_lt_two_pow (lt_of_lt_of_le (by norm_num)
      (Nat.pow_le_pow_right (by norm_num) hi))
  have h133 : (0o133 : Nat).testBit i = false :=
    Nat.testBit_lt_two_pow (lt_of_lt_of_le (by norm_num)
      (Nat.pow_le_pow_right (by norm_num) hi))
  have h111 : (0o111 : Nat).testBit i = false :=
    Nat.testBit_lt_two_pow (lt_of_lt_of_le (by norm_num)
      (Nat.pow_le_pow_right (by norm_num) hi))
  cases h : m.testBit 6 with
  | true => rw [normalize_testBit_pos m i h, h644, h133, h111]; simp
  | false => rw [normalize_testBit_neg m i h, h644, h133]; simp

theorem normalize_testBit_six (m : Nat) :
    (normalize_file_permissions m).testBit 6 = m.testBit 6 := by
  rw [normalize_testBit_low m 6 (by norm_num)]
  cases h : m.testBit 6 <;> decide

/-- Claim C1 (counterexample): for the raw mode 0o100644 (a regular file with
rw-r--r-- permissions, as returned by stat), the result of
`normalize_file_permissions` is neither exactly 0o644 nor exactly 0o755: the
file-type bits above the permission bits are preserved, so the output is
0o100644. -/
theorem C1_counterexample :
    ¬ (normalize_file_permissions 0o100644 = 0o644 ∨
       normalize_file_permissions 0o100644 = 0o755) := by
  decide

/-- Claim C1 (amended): for every raw st_mode value, the low nine permission
bits of the result of `normalize_file_permissions` are exactly 0o644 when the
raw mode's owner-execute bit is clear and exactly 0o755 when it is set,
independent of any other permission bits in the input; the bits above the
permission bits are preserved unchanged rather than cleared. -/
theorem C1_normalize_mode_amended (m : Nat) :
    normalize_file_permissions m % 512 =
      (if m &&& 0o100 ≠ 0 then 0o755 else 0o644)
    ∧ normalize_file_permissions m / 512 = m / 512 := by
  constructor
  · apply Nat.eq_of_testBit_eq
    intro i
    rw [show (512 : Nat) = 2 ^ 9 from rfl, Nat.testBit_mod_two_pow]
    by_cases hi : i < 9
    · rw [normalize_testBit_low m i hi]
      by_cases h : m.testBit 6 = true
      · rw [if_pos h, if_pos ((and_two_pow_six_ne m).mpr h)]
        simp [hi]
      · rw [if_neg h, if_neg (fun hc => h ((and_two_pow_six_ne m).mp hc))]
        simp [hi]
    · have h9 : 9 ≤ i := le_of_not_lt hi
      have h512 : (512 : Nat) ≤ 2 ^ i := by
        calc (512 : Nat) = 2 ^ 9 := by norm_num
        _ ≤ 2 ^ i := Nat.pow_le_pow_right (by norm_num) h9
      have hc : ∀ c : Nat, c < 512 → c.testBit i = false := fun c hclt =>
        Nat.testBit_lt_two_pow (lt_of_lt_of_le hclt h512)
      by_cases h : m &&& 0o100 ≠ 0
      · rw [if_pos h, hc 0o755 (by norm_num)]
        simp [hi]
      · rw [if_neg h, hc 0o644 (by norm_num)]
        simp [hi]
  · apply Nat.eq_of_testBit_eq
    intro i
    rw [show (512 : Nat) = 2 ^ 9 from rfl, ← Nat.shiftRight_eq_div_pow,
      ← Nat.shiftRight_eq_div_pow, Nat.testBit_shiftRight, Nat.testBit_shiftRight,
      normalize_testBit_high m (9 + i) (Nat.le_add_right 9 i)]

/-- Claim C9: `normalize_file_permissions` is idempotent: for every raw
st_mode value, applying it twice yields the same result as applying it
once. -/
theorem C9_normalize_idempotent (m : Nat) :
    normalize_file_permissions (normalize_file_permissions m) =
      normalize_file_permissions m := by
  apply Nat.eq_of_testBit_eq
  intro i
  by_cases hi : i < 9
  · rw [normalize_testBit_low _ i hi, normalize_testBit_low m i hi,
      normalize_testBit_six]
  · rw [normalize_testBit_high _ i (le_of_not_lt hi),
      normalize_testBit_high m i (le_of_not_lt hi)]

/-! ## Python exceptions raised by the modelled code

`ProblemInModule` subclasses `ValueError`; each exception is modelled as a
constructor carrying its message. -/

inductive PyExn
  | valueError (msg : String)
  | noDocstringError (msg : String)
  | noVersionError (msg : String)
  | invalidVersion (msg : String)
  | attributeError (msg : String)
  deriving DecidableEq

instance {ε α : Type} [DecidableEq ε] [DecidableEq α] : DecidableEq (Except ε α)
  | .ok a, .ok b =>
    if h : a = b then .isTrue (by rw [h])
    else .isFalse (fun hc => h (Except.ok.inj hc))
  | .ok _, .error _ => .isFalse (fun hc => Except.noConfusion hc)
  | .error _, .ok _ => .isFalse (fun hc => Except.noConfusion hc)
  | .error e, .error f =>
    if h : e = f then .isTrue (by rw [h])
    else .isFalse (fun hc => h (Except.error.inj hc))

/-! ## `Module` (src/flit/common.py, lines 29-54)

```python
class Module(object):
    def __init__(self, name, directory='.'):
        self.name = name
        # It must exist either as a .py file or a directory, but not both
        pkg_dir = Path(directory, name)
        py_file = Path(directory, name+'.py')
        if pkg_dir.is_dir() and py_file.is_file():
            raise ValueError(...)
        elif pkg_dir.is_dir():
            self.path = pkg_dir; self.is_package = True
        elif py_file.is_file():
            self.path = py_file; self.is_package = False
        else:
            raise ValueError(...)

    @property
    def file(self):
        if self.is_package:
            return self.path / '__init__.py'
        else:
            return self.path
```

Paths are modelled as strings joined with `/`; the two filesystem queries
`pkg_dir.is_dir()` and `py_file.is_file()` are passed in as booleans. -/

structure Module where
  name : String
  path : String
  is_package : Bool
  deriving DecidableEq

def Module.init (name directory : String)
    (pkg_dir_is_dir py_file_is_file : Bool) : Except PyExn Module :=
  let pkg_dir := directory ++ "/" ++ name
  let py_file := directory ++ "/" ++ name ++ ".py"
  if pkg_dir_is_dir && py_file_is_file then
    .error (.valueError ("Both " ++ pkg_dir ++ " and " ++ py_file ++ " exist"))
  else if pkg_dir_is_dir then
    .ok { name := name, path := pkg_dir, is_package := true }
  else if py_file_is_file then
    .ok { name := name, path := py_file, is_package := false }
  else
    .error (.valueError ("No file/folder found for module " ++ name))

def Module.file (m : Module) : String :=
  if m.is_package then m.path ++ "/" ++ "__init__.py" else m.path

/-- Claim C8: constructing a `Module` fails with a configuration error when
both the package directory and the single .py file exist, and when neither
exists; when exactly one exists, the constructed target's entry file is the
package directory's `__init__.py` for a package and the .py file itself
otherwise. -/
theorem C8_module_target (name directory : String) :
    Module.init name directory true true =
      .error (.valueError ("Both " ++ (directory ++ "/" ++ name) ++ " and "
        ++ (directory ++ "/" ++ name ++ ".py") ++ " exist"))
    ∧ Module.init name directory false false =
      .error (.valueError ("No file/folder found for module " ++ name))
    ∧ (∃ m, Module.init name directory true false = .ok m
        ∧ m.is_package = true
        ∧ m.file = directory ++ "/" ++ name ++ "/" ++ "__init__.py")
    ∧ (∃ m, Module.init name directory false true = .ok m
        ∧ m.is_package = false
        ∧ m.file = directory ++ "/" ++ name ++ ".py") := by
  refine ⟨rfl, rfl, ⟨_, rfl, rfl, rfl⟩, ⟨_, rfl, rfl, rfl⟩⟩

/-! ## `main` (src/flit/build.py, lines 27-51)

```python
ALL_FORMATS = {'wheel', 'sdist'}

def main(ini_file: Path, formats=None):
    if not formats:
        formats = ALL_FORMATS
    elif not formats.issubset(ALL_FORMATS):
        raise ValueError("Unknown package formats: {}".format(formats - ALL_FORMATS))
    sdist_info = wheel_info = None
    if 'sdist' in formats:
        ...build sdist; if 'wheel' in formats: build wheel from unpacked sdist...
    elif 'wheel' in formats:
        wheel_info = wheel_main(ini_file)
    return SimpleNamespace(wheel=wheel_info, sdist=sdist_info)
```

The format set is modelled as a list with membership semantics.  The sdist
and wheel builders live in sibling modules (`flit.sdist`, `flit.wheel`)
outside the modelled core, so their outcomes are passed in as arguments:
`sdist_info` for `SimpleNamespace(builder=sb, file=sdist_file)`,
`wheel_from_sdist` for `make_wheel_in(tmp_ini_file, dist_dir)` (the
wheel built from the unpacked sdist) and `wheel_direct` for
`wheel_main(ini_file)`.  The `ValueError` for unknown formats is modelled
with the enumerated set difference `formats - ALL_FORMATS` as the error
payload. -/

def ALL_FORMATS : List String := ["wheel", "sdist"]

structure BuildResult (W S : Type) where
  wheel : Option W
  sdist : Option S
  deriving DecidableEq

def build_from_formats {W S : Type} (fs : List String)
    (sdist_info : S) (wheel_from_sdist wheel_direct : W) : BuildResult W S :=
  if "sdist" ∈ fs then
    if "wheel" ∈ fs then
      { wheel := some wheel_from_sdist, sdist := some sdist_info }
    else
      { wheel := none, sdist := some sdist_info }
  else if "wheel" ∈ fs then
    { wheel := some wheel_direct, sdist := none }
  else
    { wheel := none, sdist := none }

def build_main {W S : Type} (formats : Option (List String))
    (sdist_info : S) (wheel_from_sdist wheel_direct : W) :
    Except (List String) (BuildResult W S) :=
  match formats with
  | none =>
    .ok (build_from_formats ALL_FORMATS sdist_info wheel_from_sdist wheel_direct)
  | some fs =>
    if fs = [] then
      .ok (build_from_formats ALL_FORMATS sdist_info wheel_from_sdist wheel_direct)
    else if ∀ f ∈ fs, f ∈ ALL_FORMATS then
      .ok (build_from_formats fs sdist_info wheel_from_sdist wheel_direct)
    else
      .error (fs.filter (fun f => f ∉ ALL_FORMATS))

/-- Claim C7: for every non-empty requested-format list that is not a subset
of `{wheel, sdist}`, `build_main` fails with an error enumerating the unknown
format values, independently of the builder outcomes (nothing is built); for
every accepted request it returns a record whose wheel and sdist entries hold
the info for each format produced and `none` for each format not produced. -/
theorem C7_build_main_formats {W S : Type} (s : S) (w₁ w₂ : W)
    (fs : List String) :
    (fs ≠ [] → ¬ (∀ f ∈ fs, f ∈ ALL_FORMATS) →
      build_main (some fs) s w₁ w₂ = .error (fs.filter (fun f => f ∉ ALL_FORMATS))
      ∧ fs.filter (fun f => f ∉ ALL_FORMATS) ≠ [])
    ∧ ((∀ f ∈ fs, f ∈ ALL_FORMATS) →
      ∃ r, build_main (some fs) s w₁ w₂ = .ok r
        ∧ r.sdist = (if "sdist" ∈ (if fs = [] then ALL_FORMATS else fs)
            then some s else none)
        ∧ r.wheel = (if "wheel" ∈ (if fs = [] then ALL_FORMATS else fs)
            then some (if "sdist" ∈ (if fs = [] then ALL_FORMATS else fs)
              then w₁ else w₂)
            else none))
    ∧ (∃ r, build_main none s w₁ w₂ = .ok r
        ∧ r.sdist = some s ∧ r.wheel = some w₁) := by
  refine ⟨?bad, ?good, ⟨_, rfl, rfl, rfl⟩⟩
  case bad =>
    intro hne hbad
    rw [build_main, if_neg hne, if_neg hbad]
    refine ⟨rfl, ?_⟩
    rcases not_forall.mp hbad with ⟨f, hf⟩
    rcases Classical.not_imp.mp hf with ⟨hmem, hnot⟩
    intro hnil
    have : f ∈ fs.filter (fun f => f ∉ ALL_FORMATS) :=
      List.mem_filter.mpr ⟨hmem, by simpa using hnot⟩
    rw [hnil] at this
    exact absurd this (List.not_mem_nil f)
  case good =>
    intro hgood
    by_cases hnil : fs = []
    · subst hnil
      exact ⟨_, rfl, rfl, rfl⟩
    · rw [build_main, if_neg hnil, if_pos hgood]
      refine ⟨_, rfl, ?_, ?_⟩ <;>
        · rw [if_neg hnil, build_from_formats]
          by_cases hs : "sdist" ∈ fs <;> by_cases hw : "wheel" ∈ fs <;>
            simp [hs, hw]

/-- Claim C7 witness: the format list `["rpm"]` is rejected with the
enumerated unknown value, and the default request builds both formats. -/
theorem C7_build_main_formats_witness :
    (build_main (some ["rpm"]) (0 : Nat) (1 : Nat) (2 : Nat) = .error ["rpm"]
      ∧ ["rpm"].filter (fun f => f ∉ ALL_FORMATS) ≠ [])
    ∧ (∃ r, build_main (none : Option (List String)) (0 : Nat) (1 : Nat) (2 : Nat) = .ok r
        ∧ r.sdist = some 0 ∧ r.wheel = some 1) := by
  refine ⟨?_, (C7_build_main_formats (0 : Nat) (1 : Nat) (2 : Nat) ["rpm"]).2.2⟩
  have h := (C7_build_main_formats (0 : Nat) (1 : Nat) (2 : Nat) ["rpm"]).1
    (by decide) (by decide)
  simpa using h

/-! ## Regular expressions (Brzozowski derivatives)

`src/flit/common.py` compiles the pattern

```python
pep440re = re.compile('^'
                   '([1-9]\d*!)?'
                 '(0|[1-9]\d*)'
               '(.(0|[1-9]\d*))*'
        '((a|b|rc)(0|[1-9]\d*))?'
          '(\.post(0|[1-9]\d*))?'
           '(\.dev(0|[1-9]\d*))?'
        '$')
```

and tests membership with `pep440re.match(version)`.  We give the pattern
language-membership semantics through a total derivative-based matcher.
Note two quirks of the source pattern, both modelled faithfully:
the dot in `(.(0|[1-9]\d*))*` is *unescaped*, so it matches any character
except a newline, and Python's `$` also matches just before a newline at the
very end of the string. -/

inductive RE
  | emp
  | eps
  | cls (f : Char → Bool)
  | lit (c : Char)
  | seq (r₁ r₂ : RE)
  | alt (r₁ r₂ : RE)
  | star (r : RE)

def RE.nullable : RE → Bool
  | .emp => false
  | .eps => true
  | .cls _ => false
  | .lit _ => false
  | .seq a b => a.nullable && b.nullable
  | .alt a b => a.nullable || b.nullable
  | .star _ => true

def RE.deriv : RE → Char → RE
  | .emp, _ => .emp
  | .eps, _ => .emp
  | .cls f, c => if f c then .eps else .emp
  | .lit a, c => if a = c then .eps else .emp
  | .seq a b, c =>
    if a.nullable then .alt (.seq (a.deriv c) b) (b.deriv c)
    else .seq (a.deriv c) b
  | .alt a b, c => .alt (a.deriv c) (b.deriv c)
  | .star a, c => .seq (a.deriv c) (.star a)

def RE.rmatch (r : RE) (s : List Char) : Bool :=
  (s.foldl RE.deriv r).nullable

def reDigit : RE := .cls Char.isDigit
def reNonzero : RE := .cls (fun c => c.isDigit && c != '0')
def reDot : RE := .cls (fun c => c != '\n')
def reNum : RE := .alt (.lit '0') (.seq reNonzero (.star reDigit))
def reOpt (r : RE) : RE := .alt r .eps

def pep440re : RE :=
  .seq (reOpt (.seq reNonzero (.seq (.star reDigit) (.lit '!'))))
  (.seq reNum
  (.seq (.star (.seq reDot reNum))
  (.seq (reOpt (.seq (.alt (.lit 'a') (.alt (.lit 'b') (.seq (.lit 'r') (.lit 'c')))) reNum))
  (.seq (reOpt (.seq (.lit '.') (.seq (.lit 'p') (.seq (.lit 'o') (.seq (.lit 's') (.seq (.lit 't') reNum))))))
        (reOpt (.seq (.lit '.') (.seq (.lit 'd') (.seq (.lit 'e') (.seq (.lit 'v') reNum)))))))))

/-- Matching for a pattern ending in `$`: the body matches the whole string
or everything before one trailing newline. -/
def pyDollarMatch (r : RE) (s : List Char) : Bool :=
  r.rmatch s ||
    (if s.getLast? = some '\n' then r.rmatch s.dropLast else false)

/-- `_is_canonical` (src/flit/common.py, lines 22-26). -/
def is_canonical (version : String) : Bool :=
  pyDollarMatch pep440re version.data

/-! ## Python values

`__version__` can be any Python object; `check_version` distinguishes falsy
values, strings and everything else, so values are modelled as none, a
string, or an integer. -/

inductive PyVal
  | none
  | str (s : String)
  | int (n : Int)
  deriving DecidableEq

def PyVal.truthy : PyVal → Bool
  | .none => false
  | .str s => s != ""
  | .int n => n != 0

/-- `format(type(version))` (quotes inside the class name are dropped). -/
def PyVal.typeName : PyVal → String
  | .none => "<class NoneType>"
  | .str _ => "<class str>"
  | .int _ => "<class int>"

/-! ## `check_version` (src/flit/common.py, lines 140-164)

```python
def check_version(version):
    if not version:
        raise NoVersionError(...)
    if not isinstance(version, str):
        raise InvalidVersion('__version__ must be a string, not {}.'...)
    if not version[0].isdigit():
        raise InvalidVersion('__version__ must start with a number. ...')
    canonical = _is_canonical(version)
    if not canonical:
        log.warning('Version string (%s) does not match Pep440.', version)
    return canonical
```

The result models the returned boolean together with the list of warnings
logged; `version[0].isdigit()` is modelled on the first character (ASCII
digits; the empty-string case is unreachable because falsy values are
rejected first). -/

def firstCharIsDigit (s : String) : Bool :=
  match s.data with
  | [] => false
  | c :: _ => c.isDigit

def noVersionMsg : String :=
  "Cannot package module without a version string. Please define a `__version__=\"x.y.z\"` in your module."

def check_version (version : PyVal) : Except PyExn (Bool × List String) :=
  if version.truthy = false then
    .error (.noVersionError noVersionMsg)
  else
    match version with
    | .str s =>
      if firstCharIsDigit s = false then
        .error (.invalidVersion ("__version__ must start with a number. It is " ++ s ++ "."))
      else
        let canonical := is_canonical s
        .ok (canonical,
          if canonical then []
          else ["Version string (" ++ s ++ ") does not match Pep440."])
    | v => .error (.invalidVersion ("__version__ must be a string, not " ++ v.typeName ++ "."))

def isInvalidVersionError : Except PyExn (Bool × List String) → Bool
  | .error (.invalidVersion _) => true
  | _ => false

/-- Claim C3 (counterexample): the integer zero is a non-string version, yet
`check_version` raises `NoVersionError` for it (Python checks truthiness
before the isinstance check), not `InvalidVersion` as the claim states. -/
theorem C3_counterexample :
    check_version (.int 0) = .error (.noVersionError noVersionMsg)
    ∧ isInvalidVersionError (check_version (.int 0)) = false :=
  ⟨rfl, rfl⟩

/-- Claim C3 (amended): `check_version` raises `NoVersionError` for an empty,
`None`, or otherwise falsy (integer zero) version, raises `InvalidVersion`
for any other non-string version, raises `InvalidVersion` for a string
version whose first character is not a digit, and for any digit-leading
string version it never raises: it returns whether the version matches the
canonical-form pattern, logging a warning (not an error) when it does not;
in particular `1.0.0` is canonical with no warning and `1.0-beta` yields a
warning and no exception. -/
theorem C3_check_version (s : String) (n : Int) :
    check_version .none = .error (.noVersionError noVersionMsg)
    ∧ check_version (.str "") = .error (.noVersionError noVersionMsg)
    ∧ (n ≠ 0 → check_version (.int n) =
        .error (.invalidVersion "__version__ must be a string, not <class int>."))
    ∧ (s ≠ "" → firstCharIsDigit s = false → check_version (.str s) =
        .error (.invalidVersion ("__version__ must start with a number. It is " ++ s ++ ".")))
    ∧ (firstCharIsDigit s = true → check_version (.str s) =
        .ok (is_canonical s,
          if is_canonical s then []
          else ["Version string (" ++ s ++ ") does not match Pep440."]))
    ∧ check_version (.str "1.0.0") = .ok (true, [])
    ∧ check_version (.str "1.0-beta") =
        .ok (false, ["Version string (1.0-beta) does not match Pep440."])
    ∧ check_version (.str "a1.0") =
        .error (.invalidVersion "__version__ must start with a number. It is a1.0.") := by
  refine ⟨rfl, rfl, ?int, ?nondigit, ?digit, by decide, by decide, by decide⟩
  case int =>
    intro hn
    have ht : (PyVal.int n).truthy = true := by
      simp [PyVal.truthy, hn]
    simp [check_version, ht, PyVal.typeName]
  case nondigit =>
    intro hs hd
    have ht : (PyVal.str s).truthy = true := by
      simp [PyVal.truthy, hs]
    simp [check_version, ht, hd]
  case digit =>
    intro hd
    have hs : s ≠ "" := by
      intro heq
      rw [heq] at hd
      exact absurd hd (by decide)
    have ht : (PyVal.str s).truthy = true := by
      simp [PyVal.truthy, hs]
    simp [check_version, ht, hd]

/-- Claim C3 witness: concrete non-zero integer, non-digit-leading string and
digit-leading string versions, with the hypotheses of `C3_check_version`
discharged. -/
theorem C3_check_version_witness :
    check_version (.int 5) =
      .error (.invalidVersion "__version__ must be a string, not <class int>.")
    ∧ check_version (.str "v1") =
      .error (.invalidVersion "__version__ must start with a number. It is v1.")
    ∧ check_version (.str "1.0") = .ok (true, []) := by
  refine ⟨(C3_check_version "x" 5).2.2.1 (by decide), ?_, ?_⟩
  · have h := (C3_check_version "v1" 5).2.2.2.1 (by decide) (by decide)
    rw [h]
    rfl
  · have h := (C3_check_version "1.0" 5).2.2.2.2.1 (by decide)
    rw [h]
    decide

/-! ## Python AST model and `get_docstring_and_version_via_ast`
(src/flit/common.py, lines 82-101)

```python
def get_docstring_and_version_via_ast(target):
    with target.file.open() as f:
        node = ast.parse(f.read())
    for child in node.body:
        # Only use the version from the given module if it's a simple
        # string assignment to __version__
        is_version_str = (isinstance(child, ast.Assign) and
                          len(child.targets) == 1 and
                          child.targets[0].id == "__version__" and
                          isinstance(child.value, ast.Str))
        if is_version_str:
            version = child.value.s
            break
    else:
        version = None
    return ast.get_docstring(node), version
```

The file read and `ast.parse` are modelled by passing the parsed top-level
statement list.  Assignment targets other than a plain `ast.Name` carry no
`id` attribute, so evaluating `child.targets[0].id` on them raises
`AttributeError`; the `and` chain evaluates `.id` before the `ast.Str` check
on the value. -/

inductive PyAstTarget
  | name (id : String)
  | attributeTgt
  | subscriptTgt
  | tupleTgt
  deriving DecidableEq

inductive PyAstExpr
  | strLit (s : String)
  | numLit (n : Int)
  | otherExpr
  deriving DecidableEq

inductive PyAstStmt
  | exprStmt (e : PyAstExpr)
  | assign (targets : List PyAstTarget) (value : PyAstExpr)
  | otherStmt
  deriving DecidableEq

/-- Attribute access `target.id`: only `ast.Name` nodes carry `id`. -/
def PyAstTarget.idAttr : PyAstTarget → Except PyExn String
  | .name id => .ok id
  | _ => .error (.attributeError "object has no attribute id")

/-- The `for child in node.body ... else: version = None` loop. -/
def scanVersion : List PyAstStmt → Except PyExn (Option String)
  | [] => .ok Option.none
  | child :: rest =>
    match child with
    | .assign [t] v => do
      let id ← t.idAttr
      if id = "__version__" then
        match v with
        | .strLit s => .ok (some s)
        | _ => scanVersion rest
      else scanVersion rest
    | _ => scanVersion rest

/-- `ast.get_docstring(node)`: the string constant heading the module, if
any (the indentation cleanup it applies is not modelled). -/
def ast_get_docstring : List PyAstStmt → Option String
  | .exprStmt (.strLit s) :: _ => some s
  | _ => Option.none

def get_docstring_and_version_via_ast (body : List PyAstStmt) :
    Except PyExn (Option String × Option String) := do
  let version ← scanVersion body
  return (ast_get_docstring body, version)

/-- Claim C10: the static extraction pass is not total over syntactically
valid modules: on the module consisting of the single statement
`obj.attr = 1` (a single-target assignment whose target is an attribute
rather than a plain name), it raises an unhandled `AttributeError` while
scanning for the version assignment, rather than skipping the statement or
raising one of the documented extraction errors. -/
theorem C10_ast_scan_attribute_error :
    get_docstring_and_version_via_ast [.assign [.attributeTgt] (.numLit 1)] =
      .error (.attributeError "object has no attribute id") := rfl

/-! ## Python string helpers for `get_info_from_module` -/

def pyStrip (s : String) : String :=
  ⟨((s.data.dropWhile Char.isWhitespace).reverse.dropWhile Char.isWhitespace).reverse⟩

def pyLstrip (s : String) : String :=
  ⟨s.data.dropWhile Char.isWhitespace⟩

/-- `splitlines()[0]` of a string that is nonempty after `lstrip()`:
everything up to the first newline (the rarer line separators `splitlines`
recognises are not modelled). -/
def firstLineOf (s : String) : String :=
  ⟨s.data.takeWhile (fun c => c != '\n')⟩

def docTruthy : Option String → Bool
  | Option.none => false
  | some s => s != ""

/-! ## `get_info_from_module` (src/flit/common.py, lines 117-138)

```python
def get_info_from_module(target):
    docstring, version = get_docstring_and_version_via_ast(target)
    if not (docstring and version):
        docstring, version = get_docstring_and_version_via_import(target)
    if (not docstring) or not docstring.strip():
        raise NoDocstringError(...)
    check_version(version)
    docstring_lines = docstring.lstrip().splitlines()
    return {'summary': docstring_lines[0], 'version': version}
```

The two extraction passes read the filesystem / import the module, so their
results are passed in as arguments: `static` for the AST pass and `dyn` for
the import fallback. -/

structure ModuleInfo where
  summary : String
  version : PyVal
  deriving DecidableEq

def noDocstringMsg : String :=
  "Cannot package module without docstring, or empty docstring. Please add a docstring to your module."

def get_info_from_module (static dyn : Option String × PyVal) :
    Except PyExn ModuleInfo :=
  let chosen :=
    if (docTruthy static.1 && static.2.truthy) = false then dyn else static
  match chosen.1 with
  | Option.none => .error (.noDocstringError noDocstringMsg)
  | some ds =>
    if ds = "" ∨ pyStrip ds = "" then
      .error (.noDocstringError noDocstringMsg)
    else do
      let _ ← check_version chosen.2
      return { summary := firstLineOf (pyLstrip ds), version := chosen.2 }

/-- Claim C4: `get_info_from_module` uses the dynamic-import fallback exactly
when the static pass returned an empty or missing docstring or a falsy
(empty or missing) version — when the static results are truthy the dynamic
pass is irrelevant to the result, and otherwise the result is determined by
the dynamic pass alone — and whenever the selected docstring is missing,
empty, or consists only of whitespace, it raises `NoDocstringError`. -/
theorem C4_get_info_fallback (sd : Option String) (sv : PyVal)
    (dd : Option String) (dv : PyVal) :
    ((docTruthy sd && sv.truthy) = true →
      ∀ dd' dv', get_info_from_module (sd, sv) (dd, dv)
        = get_info_from_module (sd, sv) (dd', dv'))
    ∧ ((docTruthy sd && sv.truthy) = false →
      get_info_from_module (sd, sv) (dd, dv)
        = get_info_from_module (dd, dv) (dd, dv))
    ∧ (∀ ds, (if (docTruthy sd && sv.truthy) = false then dd else sd) = some ds →
        (ds = "" ∨ pyStrip ds = "") →
        get_info_from_module (sd, sv) (dd, dv)
          = .error (.noDocstringError noDocstringMsg))
    ∧ ((if (docTruthy sd && sv.truthy) = false then dd else sd) = Option.none →
        get_info_from_module (sd, sv) (dd, dv)
          = .error (.noDocstringError noDocstringMsg)) := by
  refine ⟨?no_fb, ?fb, ?blank, ?missing⟩
  case no_fb =>
    intro h dd' dv'
    simp only [get_info_from_module]
    rw [if_neg (by simp [h]), if_neg (by simp [h])]
  case fb =>
    intro h
    simp only [get_info_from_module]
    rw [if_pos h, ite_self]
  case blank =>
    intro ds hc hblank
    by_cases h : (docTruthy sd && sv.truthy) = false
    · rw [if_pos h] at hc
      simp only [get_info_from_module]
      rw [if_pos h, hc]
      simp only
      rw [if_pos hblank]
    · rw [if_neg h] at hc
      simp only [get_info_from_module]
      rw [if_neg h, hc]
      simp only
      rw [if_pos hblank]
  case missing =>
    intro hc
    by_cases h : (docTruthy sd && sv.truthy) = false
    · rw [if_pos h] at hc
      simp only [get_info_from_module]
      rw [if_pos h, hc]
    · rw [if_neg h] at hc
      simp only [get_info_from_module]
      rw [if_neg h, hc]

/-- Claim C4 witness: a missing static docstring triggers the fallback, and
a whitespace-only docstring that survives selection raises
`NoDocstringError`. -/
theorem C4_get_info_fallback_witness :
    get_info_from_module (Option.none, PyVal.none) (some "Doc", .str "1.0")
      = get_info_from_module (some "Doc", .str "1.0") (some "Doc", .str "1.0")
    ∧ get_info_from_module (some "   ", .str "1.0") (Option.none, PyVal.none)
      = .error (.noDocstringError noDocstringMsg) := by
  refine ⟨(C4_get_info_fallback Option.none PyVal.none
    (some "Doc") (.str "1.0")).2.1 (by decide), ?_⟩
  exact (C4_get_info_fallback (some "   ") (.str "1.0")
    Option.none PyVal.none).2.2.1 "   " (by decide) (by decide)

/-! ## `parse_entry_point` (src/flit/common.py, lines 174-189)

```python
def parse_entry_point(ep: str):
    if ':' not in ep:
        raise ValueError("Invalid entry point (no ':'): %r" % ep)
    mod, func = ep.split(':')
    if not func.isidentifier():
        raise ValueError("Invalid entry point: %r is not an identifier" % func)
    for piece in mod.split('.'):
        if not piece.isidentifier():
            raise ValueError("Invalid entry point: %r is not a module path" % piece)
    return mod, func
```

Strings are handled character-wise here, so the entry-point spec is modelled
as a `List Char`.  `ep.split(':')` splits on *every* colon; unpacking its
result into `mod, func` raises a `ValueError` (too many values to unpack)
when there is more than one colon.  `str.isidentifier()` is modelled for
ASCII identifiers. -/

def pySplit (sep : Char) : List Char → List (List Char)
  | [] => [[]]
  | c :: rest =>
    match pySplit sep rest with
    | [] => [[]]
    | h :: t => if c = sep then [] :: h :: t else (c :: h) :: t

def isIdentStart (c : Char) : Bool := c.isAlpha || c == '_'

def isIdentChar (c : Char) : Bool := c.isAlphanum || c == '_'

def pyIsIdentifier : List Char → Bool
  | [] => false
  | c :: rest => isIdentStart c && rest.all isIdentChar

inductive EPError
  | noColon (ep : List Char)
  | unpackError
  | badFunc (func : List Char)
  | badModPiece (piece : List Char)
  deriving DecidableEq

def parse_entry_point (ep : List Char) : Except EPError (List Char × List Char) :=
  if ':' ∈ ep then
    match pySplit ':' ep with
    | [mod, func] =>
      if pyIsIdentifier func = false then .error (.badFunc func)
      else
        match (pySplit '.' mod).find? (fun p => !pyIsIdentifier p) with
        | some piece => .error (.badModPiece piece)
        | Option.none => .ok (mod, func)
    | _ => .error .unpackError
  else .error (.noColon ep)

theorem pySplit_ne_nil (sep : Char) (l : List Char) : pySplit sep l ≠ [] := by
  cases l with
  | nil => simp [pySplit]
  | cons c rest =>
    simp only [pySplit]
    cases h : pySplit sep rest with
    | nil => simp
    | cons a t => by_cases hc : c = sep <;> simp [hc]

theorem pySplit_sepFree (sep : Char) (l : List Char) (h : sep ∉ l) :
    pySplit sep l = [l] := by
  induction l with
  | nil => rfl
  | cons c rest ih =>
    have hc : c ≠ sep := fun hc => h (hc ▸ List.mem_cons_self c rest)
    have hrest : sep ∉ rest := fun hm => h (List.mem_cons_of_mem c hm)
    simp only [pySplit, ih hrest]
    simp [hc]

theorem pySplit_append (sep : Char) (a b : List Char) (h : sep ∉ a) :
    pySplit sep (a ++ sep :: b) = a :: pySplit sep b := by
  induction a with
  | nil =>
    simp only [List.nil_append, pySplit]
    cases hb : pySplit sep b with
    | nil => exact absurd hb (pySplit_ne_nil sep b)
    | cons x t => simp
  | cons c a' ih =>
    have hc : c ≠ sep := fun hc => h (hc ▸ List.mem_cons_self c a')
    have ha' : sep ∉ a' := fun hm => h (List.mem_cons_of_mem c hm)
    simp only [List.cons_append, pySplit, List.append_eq]
    rw [ih ha']
    simp [hc]

/-- Claim C6: `parse_entry_point` returns the pair `(mod, func)` for every
spec containing exactly one colon whose function part and dot-separated
module-path segments are valid identifiers, and fails with an error when the
colon is absent, the function name is not a valid identifier, or some
module-path segment is not a valid identifier; e.g. `pkg.sub:run` parses to
`(pkg.sub, run)`, `pkg.sub.run` (no colon) fails, `pkg:1bad` fails. -/
theorem C6_parse_entry_point (mod func ep : List Char) :
    (':' ∉ ep → parse_entry_point ep = .error (.noColon ep))
    ∧ (':' ∉ mod → ':' ∉ func →
      (pyIsIdentifier func = true →
        (∀ p ∈ pySplit '.' mod, pyIsIdentifier p = true) →
        parse_entry_point (mod ++ ':' :: func) = .ok (mod, func))
      ∧ (pyIsIdentifier func = false →
        parse_entry_point (mod ++ ':' :: func) = .error (.badFunc func))
      ∧ (∀ piece, pyIsIdentifier func = true →
        (pySplit '.' mod).find? (fun p => !pyIsIdentifier p) = some piece →
        parse_entry_point (mod ++ ':' :: func) = .error (.badModPiece piece)))
    ∧ parse_entry_point ("pkg.sub:run".data) = .ok ("pkg.sub".data, "run".data)
    ∧ parse_entry_point ("pkg.sub.run".data) = .error (.noColon "pkg.sub.run".data)
    ∧ parse_entry_point ("pkg:1bad".data) = .error (.badFunc "1bad".data) := by
  refine ⟨?noc, fun hm hf => ?main, by decide, by decide, by decide⟩
  case noc =>
    intro h
    rw [parse_entry_point, if_neg h]
  case main =>
    have hmem : ':' ∈ mod ++ ':' :: func :=
      List.mem_append.mpr (Or.inr (List.mem_cons_self ':' func))
    have hsplit : pySplit ':' (mod ++ ':' :: func) = [mod, func] := by
      rw [pySplit_append ':' mod func hm, pySplit_sepFree ':' func hf]
    refine ⟨?ok, ?badf, ?badp⟩
    case ok =>
      intro hident hall
      have hfind : (pySplit '.' mod).find? (fun p => !pyIsIdentifier p)
          = Option.none :=
        List.find?_eq_none.mpr (fun x hx => by simp [hall x hx])
      rw [parse_entry_point, if_pos hmem, hsplit]
      simp only
      rw [if_neg (by simp [hident]), hfind]
    case badf =>
      intro hident
      rw [parse_entry_point, if_pos hmem, hsplit]
      simp only
      rw [if_pos hident]
    case badp =>
      intro piece hident hfind
      rw [parse_entry_point, if_pos hmem, hsplit]
      simp only
      rw [if_neg (by simp [hident]), hfind]

/-- Claim C6 witness: the general clauses of `C6_parse_entry_point`
instantiated at concrete specs, with the hypotheses discharged. -/
theorem C6_parse_entry_point_witness :
    parse_entry_point ("pkg".data ++ ':' :: "run".data) = .ok ("pkg".data, "run".data)
    ∧ parse_entry_point ("nope".data) = .error (.noColon "nope".data)
    ∧ parse_entry_point ("m".data ++ ':' :: "1b".data) = .error (.badFunc "1b".data) := by
  refine ⟨((C6_parse_entry_point "pkg".data "run".data "nope".data).2.1
      (by decide) (by decide)).1 (by decide) (by decide),
    (C6_parse_entry_point "pkg".data "run".data "nope".data).1 (by decide),
    ((C6_parse_entry_point "m".data "1b".data "nope".data).2.1
      (by decide) (by decide)).2.1 (by decide)⟩

/-! ## `write_entry_points` (src/flit/common.py, lines 191-202)

```python
def write_entry_points(d, fp):
    """Write entry_points.txt from a two-level dict

    Sorts on keys to ensure results are reproducible.
    """
    for group_name in sorted(d):
        fp.write('[{}]\n'.format(group_name))
        group = d[group_name]
        for name in sorted(group):
            val = group[name]
            fp.write('{}={}\n'.format(name, val))
        fp.write('\n')
```

The two-level dict is modelled as an association list (first binding wins on
lookup, mirroring unique dict keys); the written stream is the concatenation
of everything passed to `fp.write`.  Python's `sorted` on strings is
code-point lexicographic, which is the `List Char` lexicographic order; it
is modelled by `insertionSort`, whose output is the unique `≤`-sorted
permutation of its input. -/

def pySorted (l : List (List Char)) : List (List Char) :=
  l.insertionSort (· ≤ ·)

def epLine (group : List (List Char × List Char)) (name : List Char) : List Char :=
  match group.lookup name with
  | some val => name ++ '=' :: (val ++ ['\n'])
  | Option.none => []

def epGroupBody (d : List (List Char × List (List Char × List Char)))
    (group_name : List Char) : List Char :=
  match d.lookup group_name with
  | some group => ((pySorted (group.map Prod.fst)).map (epLine group)).flatten
  | Option.none => []

def write_entry_points (d : List (List Char × List (List Char × List Char))) :
    List Char :=
  ((pySorted (d.map Prod.fst)).map fun g =>
    '[' :: (g ++ (']' :: '\n' :: (epGroupBody d g ++ ['\n'])))).flatten

/-- Two association lists denote the same single-level dict: same key
multiset and the same lookups. -/
def EqAList (g₁ g₂ : List (List Char × List Char)) : Prop :=
  (g₁.map Prod.fst).Perm (g₂.map Prod.fst) ∧ ∀ n, g₁.lookup n = g₂.lookup n

/-- Two association lists denote the same two-level dict. -/
def EqEntryDict (d₁ d₂ : List (List Char × List (List Char × List Char))) : Prop :=
  (d₁.map Prod.fst).Perm (d₂.map Prod.fst) ∧
  ∀ g, match d₁.lookup g, d₂.lookup g with
    | some g₁, some g₂ => EqAList g₁ g₂
    | Option.none, Option.none => True
    | _, _ => False

theorem pySorted_eq_of_perm {l₁ l₂ : List (List Char)} (h : l₁.Perm l₂) :
    pySorted l₁ = pySorted l₂ :=
  List.eq_of_perm_of_sorted
    ((List.perm_insertionSort _ l₁).trans (h.trans (List.perm_insertionSort _ l₂).symm))
    (List.sorted_insertionSort _ l₁)
    (List.sorted_insertionSort _ l₂)

theorem epGroupBody_congr {d₁ d₂ : List (List Char × List (List Char × List Char))}
    (h : EqEntryDict d₁ d₂) (g : List Char) :
    epGroupBody d₁ g = epGroupBody d₂ g := by
  have hg := h.2 g
  unfold epGroupBody
  cases h₁ : d₁.lookup g with
  | none =>
    cases h₂ : d₂.lookup g with
    | none => rfl
    | some g₂ =>
      rw [h₁, h₂] at hg
      exact hg.elim
  | some g₁ =>
    cases h₂ : d₂.lookup g with
    | none =>
      rw [h₁, h₂] at hg
      exact hg.elim
    | some g₂ =>
      rw [h₁, h₂] at hg
      obtain ⟨hperm, hlk⟩ := hg
      simp only
      rw [pySorted_eq_of_perm hperm]
      apply congrArg List.flatten
      apply List.map_congr_left
      intro n hn
      unfold epLine
      rw [hlk n]

/-- Claim C2: for every two-level mapping of groups to entry names,
`write_entry_points` emits group sections in sorted order of group name and
one name=value line per entry in sorted order of entry name, so the emitted
bytes are identical for any two association lists denoting equal mappings
regardless of insertion order; for the example groups, section
`[console_scripts]` precedes `[other]` and line `a=pkg:a_func` precedes
`b=pkg:b_func`. -/
theorem C2_write_entry_points
    (d₁ d₂ : List (List Char × List (List Char × List Char))) :
    (EqEntryDict d₁ d₂ → write_entry_points d₁ = write_entry_points d₂)
    ∧ write_entry_points
        [("console_scripts".data,
           [("b".data, "pkg:b_func".data), ("a".data, "pkg:a_func".data)]),
         ("other".data, [("z".data, "x:y".data)])]
      = "[console_scripts]\na=pkg:a_func\nb=pkg:b_func\n\n[other]\nz=x:y\n\n".data := by
  constructor
  · intro h
    unfold write_entry_points
    rw [pySorted_eq_of_perm h.1]
    apply congrArg List.flatten
    apply List.map_congr_left
    intro g hg
    rw [epGroupBody_congr h g]
  · decide

theorem lookup_swap_pair {β : Type} (k₁ k₂ : List Char) (v₁ v₂ : β)
    (hne : k₁ ≠ k₂) (n : List Char) :
    List.lookup n [(k₁, v₁), (k₂, v₂)] = List.lookup n [(k₂, v₂), (k₁, v₁)] := by
  by_cases h1 : n = k₁
  · subst h1
    simp [List.lookup, beq_eq_false_iff_ne.mpr hne]
  · by_cases h2 : n = k₂
    · subst h2
      simp [List.lookup, beq_eq_false_iff_ne.mpr (fun hc => hne hc.symm)]
    · simp [List.lookup, beq_eq_false_iff_ne.mpr h1, beq_eq_false_iff_ne.mpr h2]

/-- Claim C2 witness: two insertion orders of the example mapping produce
identical output, via the determinism clause of `C2_write_entry_points`. -/
theorem C2_write_entry_points_witness :
    write_entry_points
        [("other".data, [("z".data, "x:y".data)]),
         ("console_scripts".data,
           [("a".data, "pkg:a_func".data), ("b".data, "pkg:b_func".data)])]
      = write_entry_points
        [("console_scripts".data,
           [("b".data, "pkg:b_func".data), ("a".data, "pkg:a_func".data)]),
         ("other".data, [("z".data, "x:y".data)])] := by
  apply (C2_write_entry_points _ _).1
  refine ⟨by decide, ?_⟩
  intro g
  by_cases h1 : g = "other".data
  · subst h1
    show EqAList [("z".data, "x:y".data)] [("z".data, "x:y".data)]
    exact ⟨List.Perm.refl _, fun n => rfl⟩
  · by_cases h2 : g = "console_scripts".data
    · subst h2
      show EqAList
        [("a".data, "pkg:a_func".data), ("b".data, "pkg:b_func".data)]
        [("b".data, "pkg:b_func".data), ("a".data, "pkg:a_func".data)]
      exact ⟨by decide, fun n => lookup_swap_pair _ _ _ _ (by decide) n⟩
    · have e1 : List.lookup g
          [("other".data, [("z".data, "x:y".data)]),
           ("console_scripts".data,
             [("a".data, "pkg:a_func".data), ("b".data, "pkg:b_func".data)])]
          = Option.none := by
        simp [List.lookup, beq_eq_false_iff_ne.mpr h1, beq_eq_false_iff_ne.mpr h2]
      have e2 : List.lookup g
          [("console_scripts".data,
             [("b".data, "pkg:b_func".data), ("a".data, "pkg:a_func".data)]),
           ("other".data, [("z".data, "x:y".data)])]
          = Option.none := by
        simp [List.lookup, beq_eq_false_iff_ne.mpr h1, beq_eq_false_iff_ne.mpr h2]
      rw [e1, e2]
      trivial

/-! ## `Metadata` and `write_metadata_file` (src/flit/common.py, lines 222-299)

```python
class Metadata:
    home_page = None
    author = None
    ...                      # class-level defaults
    metadata_version="1.2"

    def _normalise_name(self, n):
        return n.lower().replace('-', '_')

    def write_metadata_file(self, fp):
        fields = ['Metadata-Version', 'Name', 'Version', 'Summary',
                  'Home-page', 'License']
        optional_fields = ['Keywords', 'Author', 'Author-email',
                           'Maintainer', 'Maintainer-email', 'Requires-Python']
        for field in fields:
            value = getattr(self, self._normalise_name(field))
            fp.write("{}: {}\n".format(field, value or 'UNKNOWN'))
        for field in optional_fields:
            value = getattr(self, self._normalise_name(field))
            if value is not None:
                fp.write("{}: {}\n".format(field, value))
        for clsfr in self.classifiers:
            fp.write('Classifier: {}\n'.format(clsfr))
        for req in self.requires_dist:
            fp.write('Requires-Dist: {}\n'.format(req))
        if self.description is not None:
            fp.write('\n' + self.description + '\n')
```

`writes_metadata_file` returns the chunks passed to `fp.write`, one list
element per call, in order; the file content is their concatenation.
Fields the writer never reads (platform, provides, project_urls, ...) are
carried with their class-level defaults. -/

structure Metadata where
  name : String
  version : String
  author_email : Option String
  summary : String
  home_page : Option String := Option.none
  author : Option String := Option.none
  maintainer : Option String := Option.none
  maintainer_email : Option String := Option.none
  license : Option String := Option.none
  description : Option String := Option.none
  keywords : Option String := Option.none
  download_url : Option String := Option.none
  requires_python : Option String := Option.none
  platform : List String := []
  supported_platform : List String := []
  classifiers : List String := []
  provides : List String := []
  requires : List String := []
  obsoletes : List String := []
  project_urls : List String := []
  provides_dist : List String := []
  requires_dist : List String := []
  obsoletes_dist : List String := []
  requires_external : List String := []
  dev_requires : List String := []
  metadata_version : String := "1.2"
  deriving DecidableEq

/-- `n.lower().replace('-', '_')` (ASCII lower-casing). -/
def normalise_name (n : String) : String :=
  ⟨n.data.map (fun c => if c = '-' then '_' else c.toLower)⟩

/-- `getattr(self, ...)` for the attribute names the writer uses; mandatory
string-valued attributes are wrapped in `some`. -/
def Metadata.getattr (md : Metadata) : String → Option String
  | "metadata_version" => some md.metadata_version
  | "name" => some md.name
  | "version" => some md.version
  | "summary" => some md.summary
  | "home_page" => md.home_page
  | "license" => md.license
  | "keywords" => md.keywords
  | "author" => md.author
  | "author_email" => md.author_email
  | "maintainer" => md.maintainer
  | "maintainer_email" => md.maintainer_email
  | "requires_python" => md.requires_python
  | _ => Option.none

/-- `value or 'UNKNOWN'`: `None` and the empty string are falsy. -/
def orUnknown : Option String → String
  | some s => if s = "" then "UNKNOWN" else s
  | Option.none => "UNKNOWN"

def metadataFields : List String :=
  ["Metadata-Version", "Name", "Version", "Summary", "Home-page", "License"]

def metadataOptionalFields : List String :=
  ["Keywords", "Author", "Author-email", "Maintainer", "Maintainer-email",
   "Requires-Python"]

def writes_metadata_file (md : Metadata) : List String :=
  metadataFields.map (fun field =>
    field ++ ": " ++ orUnknown (md.getattr (normalise_name field)) ++ "\n")
  ++ metadataOptionalFields.filterMap (fun field =>
    (md.getattr (normalise_name field)).map (fun v => field ++ ": " ++ v ++ "\n"))
  ++ md.classifiers.map (fun c => "Classifier: " ++ c ++ "\n")
  ++ md.requires_dist.map (fun r => "Requires-Dist: " ++ r ++ "\n")
  ++ (match md.description with
      | some d => ["\n" ++ d ++ "\n"]
      | Option.none => [])

def write_metadata_file (md : Metadata) : String :=
  String.join (writes_metadata_file md)

/-- Claim C5: `write_metadata_file` emits exactly, in order, the six
mandatory lines (with the literal `UNKNOWN` substituted for any empty or
unset value, never omitting the line), then the optional fields only when
set, then one `Classifier:` line per classifier, then one `Requires-Dist:`
line per dependency, then a blank line followed by the description only when
a description is present; an instance with only mandatory fields set emits
`UNKNOWN` for Home-page and License, no optional-field lines and no
description block. -/
theorem C5_write_metadata_record (md : Metadata) :
    writes_metadata_file md =
      ["Metadata-Version: " ++ orUnknown (some md.metadata_version) ++ "\n",
       "Name: " ++ orUnknown (some md.name) ++ "\n",
       "Version: " ++ orUnknown (some md.version) ++ "\n",
       "Summary: " ++ orUnknown (some md.summary) ++ "\n",
       "Home-page: " ++ orUnknown md.home_page ++ "\n",
       "License: " ++ orUnknown md.license ++ "\n"]
      ++ ([("Keywords", md.keywords), ("Author", md.author),
          ("Author-email", md.author_email), ("Maintainer", md.maintainer),
          ("Maintainer-email", md.maintainer_email),
          ("Requires-Python", md.requires_python)].filterMap
            (fun fv => fv.2.map (fun v => fv.1 ++ ": " ++ v ++ "\n")))
      ++ md.classifiers.map (fun c => "Classifier: " ++ c ++ "\n")
      ++ md.requires_dist.map (fun r => "Requires-Dist: " ++ r ++ "\n")
      ++ (match md.description with
          | some d => ["\n" ++ d ++ "\n"]
          | Option.none => [])
    ∧ write_metadata_file
        { name := "pkg", version := "1.0", author_email := Option.none,
          summary := "Sum" } =
      "Metadata-Version: 1.2\nName: pkg\nVersion: 1.0\nSummary: Sum\nHome-page: UNKNOWN\nLicense: UNKNOWN\n" := by
  constructor
  · rfl
  · decide

end Flit
